import Mathlib

/-!
Verification of the `Element`/`Field` DOM core of libkml
(`src/kml/dom/element.h`, release-0.5).

Pointers are modelled by element identifiers: an `ElementPtr` (a smart
pointer that may be null) becomes `Option ElemId`, and the object graph
becomes a heap `ElemId → Element`.  Each member function of the C++
classes is translated into a Lean function on this model; stateful
methods return the updated element or heap alongside the C++ return
value.
-/

namespace kmldom

/-- Element identifier, standing for an object address. -/
abbrev ElemId := Nat

/-- `KmlDomType` from kml22.h (not in the analyzed sources): an
enumerated type identity, modelled by a natural number. -/
abbrev KmlDomType := Nat

/-- The generic unknown type tag `Type_Unknown`. -/
def Type_Unknown : KmlDomType := 0

/-- The attribute bag `kmlbase::Attributes` is opaque to this core;
modelled as an ordered list of name/value pairs. -/
abbrev Attributes := List (String × String)

/-- The state of a `kmldom::Element` object (its private fields):
`default_xmlns_`, `parent_` (a raw pointer, hence `Option ElemId` with
`none` for null), `type_id_`, `char_data_`, the two unknown-content
arrays, and the lazily allocated unknown-attributes bag. -/
structure Element where
  default_xmlns_ : String
  parent_ : Option ElemId
  type_id_ : KmlDomType
  char_data_ : String
  unknown_elements_array_ : List String
  unknown_legal_elements_array_ : List (Option ElemId)
  unknown_attributes_ : Option Attributes
  deriving DecidableEq

/-- A fresh element as built by the protected constructor
`Element(KmlDomType type_id)`: no parent, empty strings and arrays. -/
def Element.mkFresh (type_id : KmlDomType) : Element :=
  { default_xmlns_ := ""
    parent_ := none
    type_id_ := type_id
    char_data_ := ""
    unknown_elements_array_ := []
    unknown_legal_elements_array_ := []
    unknown_attributes_ := none }

/-- `Element::Type()`: returns `type_id_`. -/
def Element.Type (e : Element) : KmlDomType := e.type_id_

/-- `Element::IsA(KmlDomType type)`: the base implementation returns
`type == Type_Unknown`. -/
def Element.IsA (e : Element) (type : KmlDomType) : Bool :=
  type == Type_Unknown

/-- `Element::set_default_xmlns`. -/
def Element.set_default_xmlns (e : Element) (xmlns : String) : Element :=
  { e with default_xmlns_ := xmlns }

/-- `Element::get_default_xmlns`. -/
def Element.get_default_xmlns (e : Element) : String := e.default_xmlns_

/-- `Element::set_parent(const ElementPtr& parent)`, acting on the
element `e` whose address is `selfId`, with candidate pointer `parent`
(possibly null).  C++ body:
`if (parent_ || (parent.get() == this)) return false;
 parent_ = parent.get(); return true;` -/
def Element.set_parent (e : Element) (selfId : ElemId)
    (parent : Option ElemId) : Bool × Element :=
  if e.parent_.isSome ∨ parent = some selfId then
    (false, e)
  else
    (true, { e with parent_ := parent })

/-- `Element::get_char_data`. -/
def Element.get_char_data (e : Element) : String := e.char_data_

/-- `Element::set_char_data(const std::string& char_data)`:
`char_data_ = char_data;` -/
def Element.set_char_data (e : Element) (char_data : String) : Element :=
  { e with char_data_ := char_data }

/-- `Element::AddUnknownElement(const std::string& s)`: appends `s` to
`unknown_elements_array_`. -/
def Element.AddUnknownElement (e : Element) (s : String) : Element :=
  { e with unknown_elements_array_ := e.unknown_elements_array_ ++ [s] }

/-- `Element::get_unknown_elements_array_size`. -/
def Element.get_unknown_elements_array_size (e : Element) : Nat :=
  e.unknown_elements_array_.length

/-- `Element::get_misplaced_elements_array_size`. -/
def Element.get_misplaced_elements_array_size (e : Element) : Nat :=
  e.unknown_legal_elements_array_.length

/-- Base `Element::SetBool(bool* val) { return false; }`.  The out
pointer together with its pointee is modelled as `Option Bool` (`none` =
null pointer); the method returns the C++ result and the (unchanged)
pointee. -/
def Element.SetBool (e : Element) (val : Option Bool) : Bool × Option Bool :=
  (false, val)

/-- Base `Element::SetDouble(double* val) { return false; }`.  The
double pointee is modelled as a rational. -/
def Element.SetDouble (e : Element) (val : Option Rat) : Bool × Option Rat :=
  (false, val)

/-- Base `Element::SetInt(int* val) { return false; }`. -/
def Element.SetInt (e : Element) (val : Option Int) : Bool × Option Int :=
  (false, val)

/-- Base `Element::SetEnum(int* val) { return false; }`. -/
def Element.SetEnum (e : Element) (val : Option Int) : Bool × Option Int :=
  (false, val)

/-- Base `Element::SetString(std::string* val) { return false; }`. -/
def Element.SetString (e : Element) (val : Option String) :
    Bool × Option String :=
  (false, val)

/-- The object heap: every identifier names an element state. -/
abbrev Heap := ElemId → Element

/-- Heap update at one address. -/
def updateHeap (h : Heap) (i : ElemId) (e : Element) : Heap :=
  fun j => if j = i then e else h j

/-- `Element::SetComplexChild(const T& child, T* field)` run by the
owner element at address `thisId` on heap `h`, with candidate pointer
`child` and current slot contents `field`.  C++ body:
`if (child == NULL) { *field = NULL; return true; }
 else if (child->set_parent(this)) { *field = child; return true; }
 return false;`
Returns (C++ result, updated heap, updated slot). -/
def SetComplexChild (h : Heap) (thisId : ElemId) (child : Option ElemId)
    (field : Option ElemId) : Bool × Heap × Option ElemId :=
  match child with
  | none => (true, h, none)
  | some c =>
    let r := (h c).set_parent c (some thisId)
    if r.fst then
      (true, updateHeap h c r.snd, some c)
    else
      (false, h, field)

/-- `Element::AddComplexChild(const T& child, std::vector<T>* vec)` run
by the owner element at address `thisId` on heap `h`.  C++ body:
`if (child && child->set_parent(this)) { vec->push_back(child);
 return true; } return false;`
Returns (C++ result, updated heap, updated vector). -/
def AddComplexChild (h : Heap) (thisId : ElemId) (child : Option ElemId)
    (vec : List ElemId) : Bool × Heap × List ElemId :=
  match child with
  | none => (false, h, vec)
  | some c =>
    let r := (h c).set_parent c (some thisId)
    if r.fst then
      (true, updateHeap h c r.snd, vec ++ [c])
    else
      (false, h, vec)

/-- A concrete example heap: element 1 already has element 0 as parent;
all other addresses hold fresh parentless elements. -/
def exampleHeap : Heap :=
  fun j =>
    if j = 1 then { Element.mkFresh Type_Unknown with parent_ := some 0 }
    else Element.mkFresh Type_Unknown

/-- Modelled from the spec: the common shape of `Field`'s five typed
extraction overrides, whose implementation (element.cc) is not among the
analyzed sources.  "if the out-pointer argument is absent (null), the
operation fails without attempting conversion; if present, it fails when
`char_data` does not lexically match the target type ..., leaving the
destination unmodified; on success it writes the converted value and
returns success."  `val` is the out pointer with its pointee (`none` =
null pointer). -/
def fieldSet {α : Type} (parse : String → Option α) (char_data : String)
    (val : Option α) : Bool × Option α :=
  match val with
  | none => (false, none)
  | some old =>
    match parse char_data with
    | none => (false, some old)
    | some v => (true, some v)

/-- Numeric value of a list of decimal digit characters. -/
def digitsVal (l : List Char) : Nat :=
  l.foldl (fun a c => 10 * a + (c.toNat - 48)) 0

/-- Modelled from the spec: lexical conversion of character data to a
boolean.  The spec fixes `"true"`/`"1"` as successful inputs; the
negative literals are modelled symmetrically, everything else fails. -/
def parseBool (s : String) : Option Bool :=
  if s = "true" ∨ s = "1" then some true
  else if s = "false" ∨ s = "0" then some false
  else none

/-- Modelled from the spec: lexical conversion of character data to an
integer: an optional minus sign followed by at least one decimal digit;
any other text does not lexically match. -/
def parseInt (s : String) : Option Int :=
  match s.data with
  | [] => none
  | '-' :: rest =>
    if rest ≠ [] ∧ rest.all Char.isDigit then
      some (-(digitsVal rest : Int))
    else none
  | cs =>
    if cs.all Char.isDigit then some (digitsVal cs : Int) else none

/-- Modelled from the spec: lexical conversion of character data to a
floating-point number, whose value is modelled as a rational: an
optional minus sign, at least one integer digit, and an optional
fractional part; non-numeric text (e.g. `"abc"`) does not match. -/
def parseDouble (s : String) : Option Rat :=
  let signed : Bool × List Char :=
    match s.data with
    | '-' :: rest => (true, rest)
    | cs => (false, cs)
  let intPart := signed.snd.takeWhile (fun c => c ≠ '.')
  let rest := signed.snd.dropWhile (fun c => c ≠ '.')
  let mag : Option Rat :=
    match rest with
    | [] =>
      if intPart ≠ [] ∧ intPart.all Char.isDigit then
        some (digitsVal intPart : Rat)
      else none
    | _ :: frac =>
      if intPart ≠ [] ∧ frac ≠ [] ∧ intPart.all Char.isDigit ∧
          frac.all Char.isDigit then
        some ((digitsVal intPart : Rat) +
          (digitsVal frac : Rat) / (10 : Rat) ^ frac.length)
      else none
  mag.map (fun m => if signed.fst then -m else m)

/-- The state of a `kmldom::Field`: an `Element` together with its view
of the type registry.  Modelled from the spec: the `Xsd` registry is an
external collaborator used only to resolve enumeration names, modelled
as a partial map from character data to enum values. -/
structure Field where
  elem : Element
  xsd_enum : String → Option Int

/-- Modelled from the spec: `Field::SetBool(bool* val)` converts
`char_data` to a boolean via `fieldSet`. -/
def Field.SetBool (f : Field) (val : Option Bool) : Bool × Option Bool :=
  fieldSet parseBool f.elem.char_data_ val

/-- Modelled from the spec: `Field::SetDouble(double* val)`. -/
def Field.SetDouble (f : Field) (val : Option Rat) : Bool × Option Rat :=
  fieldSet parseDouble f.elem.char_data_ val

/-- Modelled from the spec: `Field::SetInt(int* val)`. -/
def Field.SetInt (f : Field) (val : Option Int) : Bool × Option Int :=
  fieldSet parseInt f.elem.char_data_ val

/-- Modelled from the spec: `Field::SetEnum(int* enum_val)` resolves the
character data through the registry. -/
def Field.SetEnum (f : Field) (enum_val : Option Int) : Bool × Option Int :=
  fieldSet f.xsd_enum f.elem.char_data_ enum_val

/-- Modelled from the spec: `Field::SetString(std::string* val)`; any
character data is already a string, so a non-null destination always
receives it. -/
def Field.SetString (f : Field) (val : Option String) :
    Bool × Option String :=
  fieldSet some f.elem.char_data_ val

/-- A concrete `Field` whose character data is `"true"`. -/
def fieldTrue : Field :=
  { elem := { Element.mkFresh Type_Unknown with char_data_ := "true" }
    xsd_enum := fun _ => none }

/-- A concrete `Field` whose character data is `"abc"`. -/
def fieldAbc : Field :=
  { elem := { Element.mkFresh Type_Unknown with char_data_ := "abc" }
    xsd_enum := fun _ => none }

/-- Helper: a successful `set_parent` stores exactly the candidate
pointer in `parent_`. -/
theorem set_parent_success_parent (e : Element) (i : ElemId)
    (p : Option ElemId) (h : (e.set_parent i p).fst = true) :
    (e.set_parent i p).snd.parent_ = p := by
  unfold Element.set_parent at h ⊢
  by_cases hc : e.parent_.isSome ∨ p = some i
  · simp [hc] at h
  · simp [hc]

/-- Helper: `set_parent` on an element whose `parent_` is already set
fails and leaves the element unchanged. -/
theorem set_parent_of_parented (e : Element) (j : ElemId)
    (he : e.parent_ = some j) (k : ElemId) (p : Option ElemId) :
    e.set_parent k p = (false, e) := by
  unfold Element.set_parent
  simp [he]

/-- C1 (counterexample): the claim "after set_parent has been called
once, any second call returns false" is false: on a fresh element, a
first call with a null candidate succeeds (returns true) yet leaves
`parent_` null, and a second call with element 1 as candidate succeeds
again. -/
theorem set_parent_second_call_can_succeed :
    ((Element.mkFresh Type_Unknown).set_parent 0 none).fst = true ∧
    ((((Element.mkFresh Type_Unknown).set_parent 0 none).snd).set_parent 0
        (some 1)).fst = true := by
  constructor
  · decide
  · decide

/-- C1 (amended): after a `set_parent` call that succeeded with a
non-null candidate, any further `set_parent` call (any argument) returns
false and leaves the element — in particular its parent reference —
unchanged. -/
theorem set_parent_after_nonnull_success_fails (e : Element) (i q : ElemId)
    (p : Option ElemId) (h : (e.set_parent i (some q)).fst = true) :
    (e.set_parent i (some q)).snd.set_parent i p =
      (false, (e.set_parent i (some q)).snd) :=
  set_parent_of_parented (e.set_parent i (some q)).snd q
    (set_parent_success_parent e i (some q) h) i p

/-- C1 (witness): concrete instance of the amended claim: element 0 gets
parent 1 successfully, then a further call with candidate 2 fails and
changes nothing. -/
theorem set_parent_after_nonnull_success_fails_witness :
    ((Element.mkFresh Type_Unknown).set_parent 0 (some 1)).snd.set_parent 0
        (some 2) =
      (false, ((Element.mkFresh Type_Unknown).set_parent 0 (some 1)).snd) :=
  set_parent_after_nonnull_success_fails (Element.mkFresh Type_Unknown) 0 1
    (some 2) rfl

/-- C2 (counterexample): the claim "AddComplexChild with an absent
candidate always succeeds" is false: with a null child the C++ condition
`child && child->set_parent(this)` is false, so the call returns false. -/
theorem AddComplexChild_null_reports_failure :
    ¬ ((AddComplexChild exampleHeap 0 none ([] : List ElemId)).fst = true) := by
  decide

/-- C2 (amended): `AddComplexChild` with an absent (null) candidate
returns false (reports failure) and leaves the collection — and the
whole heap — unchanged. -/
theorem AddComplexChild_null_noop (h : Heap) (i : ElemId)
    (vec : List ElemId) : AddComplexChild h i none vec = (false, h, vec) :=
  rfl

/-- C3 (counterexample): the claim "the slot is mutated if and only if
set_parent on the candidate succeeded" is false: on `exampleHeap`,
`SetComplexChild` with an absent candidate and a slot holding element 1
mutates the slot (from `some 1` to `none`) and succeeds while no
`set_parent` call is made at all (the heap is untouched). -/
theorem SetComplexChild_mutation_without_set_parent :
    (SetComplexChild exampleHeap 0 none (some 1)).snd.snd = none ∧
    (some 1 : Option ElemId) ≠ none ∧
    (SetComplexChild exampleHeap 0 none (some 1)).snd.fst = exampleHeap ∧
    (SetComplexChild exampleHeap 0 none (some 1)).fst = true := by
  refine ⟨rfl, by decide, rfl, rfl⟩

/-- C3 (amended): for a *present* candidate `c`, both helpers mutate the
slot/collection exactly when `set_parent` on `c` succeeded: on success
the slot becomes `c` (resp. `c` is appended) and `c`'s parent is the
owner; on failure the result is bit-for-bit `(false, h, slot)` (resp.
`(false, h, vec)`).  (With an absent candidate `SetComplexChild` clears
the slot and succeeds without any parent-assignment.) -/
theorem attach_mutates_iff_set_parent (h : Heap) (i c : ElemId)
    (slot : Option ElemId) (vec : List ElemId) :
    (if ((h c).set_parent c (some i)).fst then
        SetComplexChild h i (some c) slot =
          (true, updateHeap h c ((h c).set_parent c (some i)).snd, some c) ∧
        ((SetComplexChild h i (some c) slot).snd.fst c).parent_ = some i
      else SetComplexChild h i (some c) slot = (false, h, slot)) ∧
    (if ((h c).set_parent c (some i)).fst then
        AddComplexChild h i (some c) vec =
          (true, updateHeap h c ((h c).set_parent c (some i)).snd,
            vec ++ [c]) ∧
        ((AddComplexChild h i (some c) vec).snd.fst c).parent_ = some i
      else AddComplexChild h i (some c) vec = (false, h, vec)) := by
  by_cases hs : ((h c).set_parent c (some i)).fst = true
  · have hp := set_parent_success_parent (h c) c (some i) hs
    constructor
    · rw [if_pos hs]
      refine ⟨by simp [SetComplexChild, hs], ?_⟩
      simp [SetComplexChild, hs, updateHeap, hp]
    · rw [if_pos hs]
      refine ⟨by simp [AddComplexChild, hs], ?_⟩
      simp [AddComplexChild, hs, updateHeap, hp]
  · constructor
    · rw [if_neg hs]
      simp [SetComplexChild, Bool.not_eq_true] at hs ⊢
      simp [hs]
    · rw [if_neg hs]
      simp [AddComplexChild, Bool.not_eq_true] at hs ⊢
      simp [hs]

/-- C3 (witness): on `exampleHeap`, attaching the fresh element 2 under
owner 0 succeeds: the slot receives element 2 and element 2's parent
becomes 0. -/
theorem attach_mutates_iff_set_parent_witness :
    SetComplexChild exampleHeap 0 (some 2) none =
      (true, updateHeap exampleHeap 2
        ((exampleHeap 2).set_parent 2 (some 0)).snd, some 2) ∧
    ((SetComplexChild exampleHeap 0 (some 2) none).snd.fst 2).parent_ =
      some 0 := by
  have h := (attach_mutates_iff_set_parent exampleHeap 0 2 none []).1
  rw [if_pos (by decide)] at h
  exact h

/-- C4: `set_parent` with the element's own self-reference as candidate
always returns false and changes nothing, whether or not a parent is
already set. -/
theorem set_parent_self_fails (e : Element) (i : ElemId) :
    e.set_parent i (some i) = (false, e) := by
  unfold Element.set_parent
  simp

/-- C5: `SetComplexChild` with an absent (null) candidate always
succeeds and clears the slot (the previous occupant, if any, is
released); the heap is untouched. -/
theorem SetComplexChild_null_clears_slot (h : Heap) (i : ElemId)
    (slot : Option ElemId) : SetComplexChild h i none slot = (true, h, none) :=
  rfl

/-- C6: the five base-class extraction operations of `Element` return
false for every argument (null or non-null out-pointer) and never write
to the destination. -/
theorem element_base_set_ops_fail (e : Element) :
    (∀ v, e.SetBool v = (false, v)) ∧ (∀ v, e.SetDouble v = (false, v)) ∧
    (∀ v, e.SetInt v = (false, v)) ∧ (∀ v, e.SetEnum v = (false, v)) ∧
    (∀ v, e.SetString v = (false, v)) :=
  ⟨fun _ => rfl, fun _ => rfl, fun _ => rfl, fun _ => rfl, fun _ => rfl⟩

/-- C7: the base `Element::IsA` returns true exactly when the queried
type is `Type_Unknown`, independently of the element's own `type_id_`. -/
theorem IsA_base_iff_unknown (e : Element) (t : KmlDomType) :
    e.IsA t = true ↔ t = Type_Unknown := by
  unfold Element.IsA
  exact beq_iff_eq

/-- C8: each of `Field`'s five extraction operations fails on a null
out-pointer without attempting conversion; with a non-null out-pointer
it fails and leaves the destination unmodified when `char_data` does not
lexically match the target type, and on success writes the converted
value and returns true. -/
theorem field_set_ops_spec (f : Field) :
    (f.SetBool none = (false, none) ∧ f.SetDouble none = (false, none) ∧
      f.SetInt none = (false, none) ∧ f.SetEnum none = (false, none) ∧
      f.SetString none = (false, none)) ∧
    (∀ b : Bool, parseBool f.elem.char_data_ = none →
      f.SetBool (some b) = (false, some b)) ∧
    (∀ (b v : Bool), parseBool f.elem.char_data_ = some v →
      f.SetBool (some b) = (true, some v)) ∧
    (∀ d : Rat, parseDouble f.elem.char_data_ = none →
      f.SetDouble (some d) = (false, some d)) ∧
    (∀ (d v : Rat), parseDouble f.elem.char_data_ = some v →
      f.SetDouble (some d) = (true, some v)) ∧
    (∀ n : Int, parseInt f.elem.char_data_ = none →
      f.SetInt (some n) = (false, some n)) ∧
    (∀ (n v : Int), parseInt f.elem.char_data_ = some v →
      f.SetInt (some n) = (true, some v)) ∧
    (∀ m : Int, f.xsd_enum f.elem.char_data_ = none →
      f.SetEnum (some m) = (false, some m)) ∧
    (∀ (m v : Int), f.xsd_enum f.elem.char_data_ = some v →
      f.SetEnum (some m) = (true, some v)) ∧
    (∀ s : String, f.SetString (some s) = (true, some f.elem.char_data_)) := by
  refine ⟨⟨rfl, rfl, rfl, rfl, rfl⟩, ?_, ?_, ?_, ?_, ?_, ?_, ?_, ?_, ?_⟩
  all_goals intro x
  case _ => intro hx; simp [Field.SetBool, fieldSet, hx]
  case _ => intro v hv; simp [Field.SetBool, fieldSet, hv]
  case _ => intro hx; simp [Field.SetDouble, fieldSet, hx]
  case _ => intro v hv; simp [Field.SetDouble, fieldSet, hv]
  case _ => intro hx; simp [Field.SetInt, fieldSet, hx]
  case _ => intro v hv; simp [Field.SetInt, fieldSet, hv]
  case _ => intro hx; simp [Field.SetEnum, fieldSet, hx]
  case _ => intro v hv; simp [Field.SetEnum, fieldSet, hv]
  case _ => simp [Field.SetString, fieldSet]

/-- C8 (witness): the field with character data `"true"` converts via
`SetBool` (overwriting a non-null destination with `true`) and the field
with character data `"abc"` fails `SetDouble` and `SetInt`, leaving the
destinations untouched. -/
theorem field_set_ops_spec_witness :
    fieldTrue.SetBool (some false) = (true, some true) ∧
    fieldAbc.SetDouble (some 0) = (false, some 0) ∧
    fieldAbc.SetInt (some 7) = (false, some 7) := by
  refine ⟨?_, ?_, ?_⟩
  · exact (field_set_ops_spec fieldTrue).2.2.1 false true rfl
  · exact (field_set_ops_spec fieldAbc).2.2.2.1 0 rfl
  · exact (field_set_ops_spec fieldAbc).2.2.2.2.2.1 7 rfl

/-- C9: neither helper resets the removed occupant's parent: if element
`c` has parent `j`, then after any `SetComplexChild` or
`AddComplexChild` call (clearing, replacing, or failing), `c`'s parent
reference still points at `j`; every subsequent `set_parent` on `c`
fails and leaves `c` unchanged, so both helpers refuse to attach `c`
under any element again. -/
theorem detached_child_parent_not_reset (h : Heap) (c j : ElemId)
    (hc : (h c).parent_ = some j) :
    (∀ i cand slot,
      ((SetComplexChild h i cand slot).snd.fst c).parent_ = some j) ∧
    (∀ i cand vec,
      ((AddComplexChild h i cand vec).snd.fst c).parent_ = some j) ∧
    (∀ k p, (h c).set_parent k p = (false, h c)) ∧
    (∀ i slot, SetComplexChild h i (some c) slot = (false, h, slot)) ∧
    (∀ i vec, AddComplexChild h i (some c) vec = (false, h, vec)) := by
  have hfail : ∀ k p, (h c).set_parent k p = (false, h c) := by
    intro k p
    exact set_parent_of_parented (h c) j hc k p
  have hframe : ∀ i d, (h d).set_parent d (some i) = (true,
      ((h d).set_parent d (some i)).snd) →
      (updateHeap h d ((h d).set_parent d (some i)).snd c).parent_ = some j := by
    intro i d hd
    unfold updateHeap
    by_cases hdc : c = d
    · subst hdc
      rw [hfail c (some i)] at hd
      simp at hd
    · simp [hdc, hc]
  refine ⟨?_, ?_, hfail, ?_, ?_⟩
  · intro i cand slot
    match cand with
    | none => exact hc
    | some d =>
      simp only [SetComplexChild]
      by_cases hd : ((h d).set_parent d (some i)).fst = true
      · simp only [hd, if_true]
        apply hframe i d
        exact Prod.ext hd rfl
      · simp only [hd, if_false]
        exact hc
  · intro i cand vec
    match cand with
    | none => exact hc
    | some d =>
      simp only [AddComplexChild]
      by_cases hd : ((h d).set_parent d (some i)).fst = true
      · simp only [hd, if_true]
        apply hframe i d
        exact Prod.ext hd rfl
      · simp only [hd, if_false]
        exact hc
  · intro i slot
    simp [SetComplexChild, hfail c (some i)]
  · intro i vec
    simp [AddComplexChild, hfail c (some i)]

/-- C9 (witness): on `exampleHeap`, where element 1 has parent 0:
clearing a slot that held element 1 leaves its parent at 0, a direct
`set_parent` on it fails, and re-attaching it under element 2 fails
without mutating anything. -/
theorem detached_child_parent_not_reset_witness :
    ((SetComplexChild exampleHeap 0 none (some 1)).snd.fst 1).parent_ =
      some 0 ∧
    (exampleHeap 1).set_parent 1 (some 2) = (false, exampleHeap 1) ∧
    SetComplexChild exampleHeap 2 (some 1) none =
      (false, exampleHeap, none) :=
  ⟨(detached_child_parent_not_reset exampleHeap 1 0 rfl).1 0 none (some 1),
   (detached_child_parent_not_reset exampleHeap 1 0 rfl).2.2.1 1 (some 2),
   (detached_child_parent_not_reset exampleHeap 1 0 rfl).2.2.2.1 2 none⟩

/-- C10: `set_char_data` replaces the stored character data entirely:
after `set_char_data s`, `get_char_data` returns exactly `s`, whatever
the previous contents (in particular after any earlier
`set_char_data`). -/
theorem set_char_data_replaces (e : Element) (s : String) :
    (e.set_char_data s).get_char_data = s :=
  rfl

end kmldom
